import Mathlib

/-!
Verification of the APEL client orchestration script (bin/client.py) and of the
republishing consolidation contract exercised by test/test_republish.py.

The embedding mirrors the source functions:

* run_ssm (bin/client.py, lines 58-128): broker resolution from either a
  directory (BDII/LDAP) network lookup or a static host/port pair, SSM
  initialisation (server certificate check, destination queue check), and the
  connect/send/close sequence.
* run_client (bin/client.py, lines 131-288): configuration parsing, database
  connection, spec updater, joiner, summariser, and the unloader section with
  its interval dispatch and sync-message pass.
* main (bin/client.py, lines 291-343): run_client followed by run_ssm when the
  ssm/enabled flag is set.
* the record consolidation (replace, never merge) contract of the record
  store, which lives outside this repository and is modelled from the spec.

Configuration options read with ConfigParser.get are modelled as Option-valued
fields exactly where the source handles ConfigParser.NoOptionError; options the
source reads without a handler are plain fields (a missing one would abort the
source as well).  External collaborators (the LDAP lookup, the file system
check for the server certificate, the Ssm2 constructor and session, the
database operations) are modelled as outcome fields of an externals structure.
-/

namespace Apel

/-! ## Broker resolution and the SSM sending phase (run_ssm) -/

/-- The options of the sender configuration (scp) that run_ssm reads.
Option-valued fields are the ones whose absence the source catches as
ConfigParser.NoOptionError: broker/bdii, broker/network, broker/host,
broker/port, certificates/server_cert, and messaging/destination
(the last raises Ssm2Exception when absent). -/
structure SsmConfig where
  bdii : Option String
  use_ssl : Bool
  network : Option String
  host : Option String
  port : Option Nat
  server_cert : Option String
  destination : Option String
  deriving Repr, DecidableEq

/-- Outcome of bg.get_broker_hosts_and_ports: either a list of (host, port)
pairs, or an ldap.LDAPError raised during the lookup. -/
inductive LookupOutcome where
  | ok (brokers : List (String × Nat))
  | ldapError
  deriving Repr, DecidableEq

/-- External collaborator outcomes for run_ssm: the directory lookup result,
whether the configured server certificate path is a file, whether the Ssm2
constructor succeeds, and whether handle_connect and send_all succeed. -/
structure SsmExternals where
  lookup : LookupOutcome
  serverCertIsFile : Bool
  ssm2InitOk : Bool
  connectOk : Bool
  sendOk : Bool
  deriving Repr, DecidableEq

/-- Result of the broker resolution block of run_ssm (lines 63-88). -/
inductive ResolveResult where
  /-- brokers bound; execution falls through to SSM initialisation. -/
  | brokers (bs : List (String × Nat))
  /-- neither lookup nor static configuration complete: the handler logs,
  then aborts the process with a non-zero status.  (In the source the bare
  log.info() call on line 82 raises a TypeError before the explicit
  sys.exit(1) is reached; either way the process terminates non-zero.) -/
  | fatal
  /-- ldap.LDAPError during the lookup: messages are not sent, run_ssm
  returns and the run continues. -/
  | skipTransport
  deriving Repr, DecidableEq

/-- Broker resolution, bin/client.py lines 63-88.  When broker/bdii or
broker/network is absent, ConfigParser.NoOptionError sends control to the
static host/port fallback; when the lookup itself raises ldap.LDAPError the
transport is skipped.  The list returned by a successful lookup is bound
unchecked: the source only logs its length. -/
def resolveBrokers (cfg : SsmConfig) (lookup : LookupOutcome) : ResolveResult :=
  match cfg.bdii, cfg.network with
  | some _, some _ =>
    match lookup with
    | .ok bs => .brokers bs
    | .ldapError => .skipTransport
  | _, _ =>
    match cfg.host, cfg.port with
    | some h, some p => .brokers [(h, p)]
    | _, _ => .fatal

/-- Observable events of one run_ssm call. -/
structure SsmEvents where
  /-- the process terminated with a non-zero status (missing broker
  configuration branch). -/
  fatal : Bool
  /-- the broker list bound by the resolution block, when it completed. -/
  brokers : Option (List (String × Nat))
  /-- Ssm2Exception during initialisation (server certificate not a file,
  destination absent or blank, or the constructor failing): run_ssm logs
  and returns. -/
  initFailed : Bool
  /-- handle_connect succeeded, i.e. a connection was established. -/
  connected : Bool
  /-- send_all completed. -/
  sentAll : Bool
  /-- close_connection was invoked. -/
  closed : Bool
  /-- the final success log lines were reached. -/
  finished : Bool
  deriving Repr, DecidableEq

/-- Events of a run_ssm call that returned before any broker was bound. -/
def noSsmEvents : SsmEvents :=
  { fatal := false, brokers := none, initFailed := false, connected := false,
    sentAll := false, closed := false, finished := false }

/-- Whether SSM initialisation (lines 90-117) raises Ssm2Exception: a
configured server certificate that is not a file, a destination option that is
absent or equal to the empty string, or the Ssm2 constructor failing. -/
def ssmInitFails (cfg : SsmConfig) (ext : SsmExternals) : Bool :=
  (match cfg.server_cert with
   | some _ => !ext.serverCertIsFile
   | none => false) ||
  (match cfg.destination with
   | some d => d = ""
   | none => true) ||
  !ext.ssm2InitOk

/-- run_ssm, bin/client.py lines 58-128.  The connect/send/close block
(lines 119-125) invokes close_connection only after handle_connect and
send_all have both returned; an Ssm2Exception from either is caught by an
except clause that logs and returns, with no finally clause. -/
def run_ssm (cfg : SsmConfig) (ext : SsmExternals) : SsmEvents :=
  match resolveBrokers cfg ext.lookup with
  | .fatal => { noSsmEvents with fatal := true }
  | .skipTransport => noSsmEvents
  | .brokers bs =>
    if ssmInitFails cfg ext then
      { noSsmEvents with brokers := some bs, initFailed := true }
    else if ext.connectOk then
      if ext.sendOk then
        { noSsmEvents with
          brokers := some bs, connected := true,
          sentAll := true, closed := true, finished := true }
      else
        { noSsmEvents with brokers := some bs, connected := true }
    else
      { noSsmEvents with brokers := some bs }

/-! ## The client workflow (run_client and main) -/

/-- Splitting of a comma-separated VO list option, bin/client.py lines 174
and 180: the option value is split on commas and each entry stripped of
surrounding whitespace. -/
def parseVoList (s : String) : List String :=
  (s.splitOn ",").map String.trim

/-- The include/exclude VO option handling, bin/client.py lines 172-182.
The source first tries unloader/include_vos; only when that option is absent
(ConfigParser.NoOptionError) does it read unloader/exclude_vos. -/
def voFilters (incOpt excOpt : Option String) :
    Option (List String) × Option (List String) :=
  match incOpt with
  | some s => (some (parseVoList s), none)
  | none =>
    match excOpt with
    | some s => (none, some (parseVoList s))
    | none => (none, none)

/-- The options of the client configuration (ccp) that drive control flow in
run_client and main.  include_vos and exclude_vos are Option-valued because
the source catches ConfigParser.NoOptionError for them; the remaining options
are read unconditionally (within their enabled branch). -/
structure ClientConfig where
  spec_updater_enabled : Bool
  joiner_enabled : Bool
  site_name : String
  local_jobs : Bool
  lrms_server : String
  unloader_enabled : Bool
  send_summaries : Bool
  send_ur : Bool
  include_vos : Option String
  exclude_vos : Option String
  interval : String
  withhold_dns : Bool
  ssm_enabled : Bool
  deriving Repr, DecidableEq

/-- Exception kinds the unloader section catches (lines 277-280): KeyError
from an invalid table name, ApelDbException from a failed unload. -/
inductive UnloadError where
  | keyError
  | apelDbError
  deriving Repr, DecidableEq

/-- Outcome of one DbUnloader detail unload call: the (message count, record
count) pair, or one of the caught exceptions. -/
inductive UnloadResult where
  | failed (e : UnloadError)
  | ok (msgs recs : Nat)
  deriving Repr, DecidableEq

/-- External collaborator outcomes for run_client: whether the database
connection test succeeds, the result of whichever detail unload the interval
mode selects, and the counts returned by unload_sync. -/
structure ClientExternals where
  dbConnectOk : Bool
  unloadLatest : UnloadResult
  unloadGap : UnloadResult
  unloadAll : UnloadResult
  unloadSync : Nat × Nat
  deriving Repr, DecidableEq

/-- Observable events of one run_client call that got past the database
connection. -/
structure ClientTrace where
  /-- the spec updater section ran (its LDAP failures are caught). -/
  specUpdaterRan : Bool
  /-- the joiner section ran. -/
  joinerRan : Bool
  /-- number of db.summarise_jobs() calls (line 247, outside every flag
  test). -/
  summariseCount : Nat
  /-- the (include, exclude) VO lists handed to DbUnloader, when the
  unloader section constructed one. -/
  unloaderFilters : Option (Option (List String) × Option (List String))
  /-- the counts logged by the Unloaded-records message (line 275), when it
  was reached with bound values. -/
  detailReported : Option (Nat × Nat)
  /-- unloader.unload_sync() (line 283) was called. -/
  syncCalled : Bool
  /-- the counts returned by unload_sync, when it was called. -/
  syncCounts : Option (Nat × Nat)
  deriving Repr, DecidableEq

/-- Result of run_client: a configuration error or database error aborts the
process via sys.exit(1); an unrecognised interval mode crashes with an
uncaught NameError; otherwise the function returns normally. -/
inductive ClientResult where
  | configError
  | dbError
  /-- uncaught exception: the trace records the events up to the crash. -/
  | crash (t : ClientTrace)
  | ok (t : ClientTrace)
  deriving Repr, DecidableEq

/-- The trace state after the summariser section (line 249): the spec updater
and joiner ran according to their flags, summarise_jobs was called once, and
the DbUnloader construction records the VO filters when the unloader is
enabled. -/
def baseTrace (cfg : ClientConfig) : ClientTrace :=
  { specUpdaterRan := cfg.spec_updater_enabled,
    joinerRan := cfg.joiner_enabled,
    summariseCount := 1,
    unloaderFilters :=
      if cfg.unloader_enabled then
        some (voFilters cfg.include_vos cfg.exclude_vos)
      else none,
    detailReported := none, syncCalled := false, syncCounts := none }

/-- The interval modes the dispatch on lines 263-270 recognises. -/
def recognisedInterval (s : String) : Bool :=
  s == "latest" || s == "gap" || s == "all"

/-- run_client, bin/client.py lines 131-288.

Configuration section (138-186): a blank site name with the spec updater or
joiner enabled, or a blank LRMS server with local jobs enabled, raises
ClientConfigException, caught at line 184 and followed by sys.exit(1).

Database section (191-207): a failed connection exits with sys.exit(1).

Unloader section (251-288): the interval mode selects one of unload_latest,
unload_gap, unload_all; KeyError and ApelDbException from the unload are
caught and unload_sync still runs.  When the mode is unrecognised the source
only logs warnings, leaving msgs and recs unassigned, and then evaluates
them on line 275: the resulting NameError matches no except clause, so the
call crashes before unload_sync. -/
def run_client (cfg : ClientConfig) (ext : ClientExternals) : ClientResult :=
  if (cfg.spec_updater_enabled || cfg.joiner_enabled) && cfg.site_name == "" then
    .configError
  else if cfg.local_jobs && cfg.lrms_server == "" then
    .configError
  else if !ext.dbConnectOk then
    .dbError
  else if cfg.unloader_enabled then
    match
      (if cfg.interval == "latest" then some ext.unloadLatest
       else if cfg.interval == "gap" then some ext.unloadGap
       else if cfg.interval == "all" then some ext.unloadAll
       else none) with
    | some (.ok m r) =>
      .ok { baseTrace cfg with
            detailReported := some (m, r),
            syncCalled := true, syncCounts := some ext.unloadSync }
    | some (.failed _) =>
      .ok { baseTrace cfg with
            syncCalled := true, syncCounts := some ext.unloadSync }
    | none => .crash (baseTrace cfg)
  else
    .ok (baseTrace cfg)

/-- Whether run_client returned normally. -/
def ClientResult.completed : ClientResult → Bool
  | .ok _ => true
  | _ => false

/-- Result of one main() invocation (bin/client.py lines 291-343). -/
structure MainResult where
  clientResult : ClientResult
  /-- run_ssm was invoked (lines 335-341). -/
  ssmRan : Bool
  ssmEvents : Option SsmEvents
  /-- the process terminated abnormally (sys.exit(1) or an uncaught
  exception) instead of reaching the final log line. -/
  aborted : Bool
  deriving Repr, DecidableEq

/-- main, bin/client.py lines 291-343: run_client first, then, when the
ssm/enabled option is set, run_ssm.  A sys.exit or uncaught exception inside
run_client prevents the SSM phase; a fatal outcome inside run_ssm aborts the
process there. -/
def mainRun (ccfg : ClientConfig) (cext : ClientExternals)
    (scfg : SsmConfig) (sext : SsmExternals) : MainResult :=
  match run_client ccfg cext with
  | .configError =>
    { clientResult := .configError, ssmRan := false, ssmEvents := none,
      aborted := true }
  | .dbError =>
    { clientResult := .dbError, ssmRan := false, ssmEvents := none,
      aborted := true }
  | .crash t =>
    { clientResult := .crash t, ssmRan := false, ssmEvents := none,
      aborted := true }
  | .ok t =>
    if ccfg.ssm_enabled then
      let ev := run_ssm scfg sext
      { clientResult := .ok t, ssmRan := true, ssmEvents := some ev,
        aborted := ev.fatal }
    else
      { clientResult := .ok t, ssmRan := false, ssmEvents := none,
        aborted := false }

/-! ## Record consolidation (republishing) -/

/-- A raw accounting (cloud) record as submitted by test_republish.py: a
natural identity (entity id and site), a measurement-window start timestamp
(epoch seconds) and a duration in seconds. -/
structure AccountingRecord where
  vmuuid : String
  site : String
  start : Nat
  duration : Nat
  deriving Repr, DecidableEq

/-- MeasurementTime of a record: start plus duration (test_republish.py
lines 74-81). -/
def measurementTime (r : AccountingRecord) : Nat :=
  r.start + r.duration

/-- The consolidation key of a record: its identity together with the period
bucket of its MeasurementTime.  The bucketing function is a parameter (the
spec says a period is typically the calendar month of MeasurementTime). -/
def recordKey (periodOf : Nat → Nat) (r : AccountingRecord) :
    String × String × Nat :=
  (r.vmuuid, r.site, periodOf (measurementTime r))

/-- The consolidated-record state: one MeasurementTime per
(identity, period) key. -/
abbrev Store := List ((String × String × Nat) × Nat)

/-- Modelled from the spec: the record store's consolidation contract
(ApelDb.load_records and the cloud replace logic are not under src, only
test_republish.py is).  Submitting an AccountingRecord for an
(identity, period) that already has a ConsolidatedRecord replaces that
record rather than merging with it; otherwise a new ConsolidatedRecord is
created.  Either way the stored MeasurementTime is start plus duration of
the submitted record. -/
def submitRecord (periodOf : Nat → Nat) (store : Store)
    (r : AccountingRecord) : Store :=
  let k := recordKey periodOf r
  if store.any (fun e => e.1 = k) then
    store.map (fun e => if e.1 = k then (k, measurementTime r) else e)
  else
    store ++ [(k, measurementTime r)]

/-- Modelled from the spec: submitting a sequence of AccountingRecords in
order, each consolidated by submitRecord. -/
def load_records (periodOf : Nat → Nat) (store : Store)
    (rs : List AccountingRecord) : Store :=
  rs.foldl (submitRecord periodOf) store

/-- The period bucketing used in the concrete republish scenario: an
(approximate) month counter over epoch seconds; the four scenario records all
fall in the same bucket, as the test data was crafted to ensure. -/
def periodMonth : Nat → Nat := fun t => t / 2592000

/-- A scenario record of test_republish.py (lines 56-67): fixed identity and
start time, varying wall duration. -/
def testRecord (d : Nat) : AccountingRecord :=
  { vmuuid := "1559818218-Site1-VM12345", site := "Site1",
    start := 1559818218, duration := d }

/-- The consolidation key shared by all scenario records. -/
def testKey : String × String × Nat :=
  ("1559818218-Site1-VM12345", "Site1", 601)

/-! ## Theorems: consolidation -/

lemma submitRecord_singleton (p : Nat → Nat) (k : String × String × Nat)
    (v : Nat) (r : AccountingRecord) (hr : recordKey p r = k) :
    submitRecord p [(k, v)] r = [(k, measurementTime r)] := by
  simp [submitRecord, hr]

lemma load_records_singleton (p : Nat → Nat) (k : String × String × Nat) :
    ∀ (rs : List AccountingRecord) (v : Nat),
      (∀ x ∈ rs, recordKey p x = k) →
      ∃ w, load_records p [(k, v)] rs = [(k, w)] := by
  intro rs
  induction rs with
  | nil => exact fun v _ => ⟨v, rfl⟩
  | cons a l ih =>
    intro v h
    have ha : recordKey p a = k := h a (List.mem_cons_self a l)
    have h2 : ∀ x ∈ l, recordKey p x = k :=
      fun x hx => h x (List.mem_cons_of_mem a hx)
    have step : load_records p [(k, v)] (a :: l)
        = load_records p [(k, measurementTime a)] l := by
      simp [load_records, submitRecord_singleton p k v a ha]
    rw [step]
    exact ih (measurementTime a) h2

/-- Claim C1: for any sequence of AccountingRecords sharing the same identity
and reporting period, after all are submitted in order, exactly one
ConsolidatedRecord exists for that (identity, period), and its
MeasurementTime equals start plus duration of the last-submitted record,
regardless of the earlier durations. -/
theorem consolidation_supersedes (p : Nat → Nat) (k : String × String × Nat)
    (rs : List AccountingRecord) (rlast : AccountingRecord)
    (hk : ∀ x ∈ rs ++ [rlast], recordKey p x = k) :
    load_records p [] (rs ++ [rlast]) = [(k, measurementTime rlast)] := by
  cases rs with
  | nil =>
    have h : recordKey p rlast = k := hk rlast (by simp)
    simp [load_records, submitRecord, h]
  | cons a l =>
    have ha : recordKey p a = k := hk a (by simp)
    have h1 : ∀ x ∈ l, recordKey p x = k := by
      intro x hx
      exact hk x (by simp [hx])
    have hl : recordKey p rlast = k := hk rlast (by simp)
    have step0 : load_records p [] ((a :: l) ++ [rlast])
        = load_records p [(k, measurementTime a)] (l ++ [rlast]) := by
      simp [load_records, submitRecord, ha]
    obtain ⟨w, hw⟩ := load_records_singleton p k l (measurementTime a) h1
    have step1 : load_records p [(k, measurementTime a)] (l ++ [rlast])
        = submitRecord p (load_records p [(k, measurementTime a)] l) rlast := by
      simp [load_records, List.foldl_append]
    rw [step0, step1, hw, submitRecord_singleton p k w rlast hl]

/-- Witness for C1: the concrete scenario of test_republish.py.  Four records
with identical identity and start time T = 1559818218 and wall durations
1582, 158, 851, 200 submitted in that order leave exactly one consolidated
record whose MeasurementTime is T + 200. -/
theorem consolidation_supersedes_scenario :
    load_records periodMonth []
        [testRecord 1582, testRecord 158, testRecord 851, testRecord 200]
      = [(testKey, 1559818218 + 200)] := by
  have h := consolidation_supersedes periodMonth testKey
    [testRecord 1582, testRecord 158, testRecord 851] (testRecord 200)
    (by decide)
  simpa [measurementTime, testRecord] using h

/-! ## Concrete configurations used by counterexamples and witnesses -/

/-- A sender configuration with the network lookup fully configured. -/
def lookupCfg : SsmConfig :=
  { bdii := some "ldap://bdii.example.org:2170", use_ssl := false,
    network := some "PROD", host := none, port := none,
    server_cert := none, destination := some "/queue/global.accounting" }

/-- A sender configuration using the static host/port fallback, with a blank
destination queue. -/
def staticCfg : SsmConfig :=
  { bdii := none, use_ssl := false, network := none,
    host := some "broker.example.org", port := some 61613,
    server_cert := none, destination := some "" }

/-- A static sender configuration with a valid destination queue. -/
def goodStaticCfg : SsmConfig :=
  { staticCfg with destination := some "/queue/global.accounting" }

/-- A sender configuration with neither the network lookup nor the static
pair fully specified. -/
def noBrokerCfg : SsmConfig :=
  { bdii := none, use_ssl := false, network := some "PROD", host := none,
    port := some 61613, server_cert := none,
    destination := some "/queue/global.accounting" }

/-- Externals in which every collaborator succeeds. -/
def okExternals : SsmExternals :=
  { lookup := .ok [("broker.example.org", 61613)], serverCertIsFile := true,
    ssm2InitOk := true, connectOk := true, sendOk := true }

/-- Externals in which send_all raises Ssm2Exception. -/
def sendFailExternals : SsmExternals :=
  { okExternals with sendOk := false }

/-- Externals in which the directory lookup raises ldap.LDAPError. -/
def ldapFailExternals : SsmExternals :=
  { okExternals with lookup := .ldapError }

/-! ## Theorems: broker resolution and the transport session -/

/-- Counterexample to claim C2: with the network lookup configured and the
directory service returning an empty broker list, resolution completes as a
success carrying zero endpoints; the source only logs the length and binds
the empty list. -/
theorem resolve_empty_success_cex :
    resolveBrokers lookupCfg (.ok []) = .brokers [] := by
  decide

/-- Claim C2 (amended): broker resolution either fails distinguishably
(fatal abort for missing configuration, transport skip for an LDAP error) or
succeeds with either the list returned by the network lookup passed through
unchecked — empty when the lookup found zero brokers — or the static
singleton, which is always non-empty. -/
theorem resolve_success_source (cfg : SsmConfig) (l : LookupOutcome)
    (bs : List (String × Nat)) (h : resolveBrokers cfg l = .brokers bs) :
    l = .ok bs ∨ ∃ hs pt, bs = [(hs, pt)] := by
  obtain ⟨bdii, ssl, network, host, port, sc, dest⟩ := cfg
  cases bdii <;> cases network <;> cases host <;> cases port <;> cases l <;>
    simp only [resolveBrokers] at h <;>
    first
      | (injection h with h2; subst h2; exact Or.inl rfl)
      | (injection h with h2; exact Or.inr ⟨_, _, h2.symm⟩)
      | injection h

/-- Witness for the amended C2, applied to the static configuration: the
fallback result is the non-empty singleton. -/
theorem resolve_success_source_witness :
    LookupOutcome.ldapError = .ok [("broker.example.org", 61613)] ∨
      ∃ hs pt, [("broker.example.org", (61613 : Nat))] = [(hs, pt)] :=
  resolve_success_source staticCfg .ldapError
    [("broker.example.org", 61613)] (by decide)

/-- Counterexample to claim C5: with brokers resolved and a blank destination
queue configured, run_ssm does not terminate the process — the Ssm2Exception
raised for the blank destination is caught, logged, and the function returns
with the transport phase skipped. -/
theorem blank_destination_no_exit_cex :
    (run_ssm staticCfg okExternals).fatal = false
    ∧ (run_ssm staticCfg okExternals).initFailed = true := by
  decide

/-- Claim C5 (amended): of the two configuration errors, only the missing
broker configuration (neither network lookup nor static pair fully
specified) terminates the process abnormally; a blank destination queue
merely fails SSM initialisation, skipping the transport phase while the
process continues. -/
theorem config_errors_amended (cfg : SsmConfig) (ext : SsmExternals) :
    ((cfg.bdii = none ∨ cfg.network = none) →
      (cfg.host = none ∨ cfg.port = none) →
      (run_ssm cfg ext).fatal = true)
    ∧ (∀ bs, resolveBrokers cfg ext.lookup = .brokers bs →
        cfg.destination = some "" →
        (run_ssm cfg ext).fatal = false
          ∧ (run_ssm cfg ext).initFailed = true
          ∧ (run_ssm cfg ext).connected = false) := by
  constructor
  · intro h1 h2
    have hres : resolveBrokers cfg ext.lookup = .fatal := by
      unfold resolveBrokers
      rcases h1 with h1 | h1 <;> rcases h2 with h2 | h2 <;> simp [h1, h2]
    simp [run_ssm, hres, noSsmEvents]
  · intro bs hres hdest
    simp [run_ssm, hres, ssmInitFails, hdest, noSsmEvents]

/-- Witness for the amended C5 at concrete configurations: the broker-less
configuration aborts, the blank-destination configuration does not. -/
theorem config_errors_amended_witness :
    (run_ssm noBrokerCfg okExternals).fatal = true
    ∧ ((run_ssm staticCfg okExternals).fatal = false
        ∧ (run_ssm staticCfg okExternals).initFailed = true
        ∧ (run_ssm staticCfg okExternals).connected = false) :=
  ⟨(config_errors_amended noBrokerCfg okExternals).1 (Or.inl rfl) (Or.inl rfl),
   (config_errors_amended staticCfg okExternals).2
     [("broker.example.org", 61613)] (by decide) rfl⟩

/-- Counterexample to claim C6: with a connection established and send_all
failing, run_ssm returns without invoking close_connection — the except
clause on line 123 only logs, and there is no finally clause. -/
theorem close_skipped_on_send_failure_cex :
    (run_ssm goodStaticCfg sendFailExternals).connected = true
    ∧ (run_ssm goodStaticCfg sendFailExternals).closed = false := by
  decide

/-- Claim C6 (amended): close_connection is invoked exactly when both
handle_connect and send_all succeed; a failure during sending (or
connecting) returns from the transport phase without closing the
connection. -/
theorem close_only_after_send (cfg : SsmConfig) (ext : SsmExternals) :
    (run_ssm cfg ext).closed
      = ((run_ssm cfg ext).connected && (run_ssm cfg ext).sentAll) := by
  unfold run_ssm
  cases resolveBrokers cfg ext.lookup with
  | fatal => rfl
  | skipTransport => rfl
  | brokers bs =>
    cases hb : ssmInitFails cfg ext <;>
      cases hc : ext.connectOk <;>
      cases hs : ext.sendOk <;>
      simp [hb, hc, hs, noSsmEvents]

/-- A client configuration with every optional phase disabled except
sending. -/
def noUnloadCfg : ClientConfig :=
  { spec_updater_enabled := false, joiner_enabled := false,
    site_name := "Site1", local_jobs := false, lrms_server := "",
    unloader_enabled := false, send_summaries := false, send_ur := false,
    include_vos := none, exclude_vos := none, interval := "latest",
    withhold_dns := false, ssm_enabled := true }

/-- Client externals in which every collaborator succeeds. -/
def okClientExternals : ClientExternals :=
  { dbConnectOk := true, unloadLatest := .ok 3 25, unloadGap := .ok 0 0,
    unloadAll := .ok 0 0, unloadSync := (1, 12) }

/-- The unloader enabled with a failing detail unload. -/
def unloadFailCfg : ClientConfig :=
  { noUnloadCfg with unloader_enabled := true }

/-- Client externals in which unload_latest raises ApelDbException. -/
def unloadFailExternals : ClientExternals :=
  { okClientExternals with unloadLatest := .failed .apelDbError }

/-- The trace of a run of unloadFailCfg against unloadFailExternals: no
detail counts reported, sync still generated. -/
def unloadFailTrace : ClientTrace :=
  { baseTrace unloadFailCfg with syncCalled := true, syncCounts := some (1, 12) }

/-- The unloader enabled with an unrecognised interval mode. -/
def badIntervalCfg : ClientConfig :=
  { noUnloadCfg with unloader_enabled := true, interval := "fortnightly" }

/-- The unloader enabled with a successful detail unload. -/
def reportCfg : ClientConfig :=
  { noUnloadCfg with unloader_enabled := true }

/-- The trace of a successful run of reportCfg: 25 records in 3 messages
reported, sync generated. -/
def reportTrace : ClientTrace :=
  { baseTrace reportCfg with
    detailReported := some (3, 25),
    syncCalled := true, syncCounts := some (1, 12) }

/-! ## Theorems: the client workflow -/

/-- Counterexample to claim C3: with the unloader disabled, run_client
completes without ever calling unload_sync — the sync pass on line 283 sits
inside the if unloader_enabled block. -/
theorem sync_skipped_when_disabled_cex :
    noUnloadCfg.unloader_enabled = false
    ∧ run_client noUnloadCfg okClientExternals = .ok (baseTrace noUnloadCfg)
    ∧ (baseTrace noUnloadCfg).syncCalled = false := by
  decide

/-- Claim C3 (amended): sync generation is tied to the unloader flag: in a
completed run it happened exactly when the unloader was enabled (it does run
when the detail unload itself fails with a caught error), and it never
happens in a run that was disabled or crashed on an unrecognised
interval. -/
theorem sync_iff_unloader_enabled (cfg : ClientConfig)
    (ext : ClientExternals) (t : ClientTrace) :
    (run_client cfg ext = .ok t → t.syncCalled = cfg.unloader_enabled)
    ∧ (run_client cfg ext = .crash t → t.syncCalled = false) := by
  unfold run_client
  split
  · simp
  split
  · simp
  split
  · simp
  split
  · split <;> constructor <;> intro h <;>
      first
        | (injection h with h2; subst h2; simp_all [baseTrace])
        | injection h
  · constructor <;> intro h <;>
      first
        | (injection h with h2; subst h2; simp_all [baseTrace])
        | injection h

/-- Witness for the amended C3: the unloader enabled with a failing detail
unload still generates sync messages. -/
theorem sync_iff_unloader_enabled_witness :
    unloadFailTrace.syncCalled = unloadFailCfg.unloader_enabled :=
  (sync_iff_unloader_enabled unloadFailCfg unloadFailExternals
    unloadFailTrace).1 (by decide)

/-- Claim C4 is the intended behaviour; the code diverges from it: with the
unloader enabled and an unrecognised interval mode, the source logs
warnings, leaves msgs and recs unassigned, and then evaluates them on
line 275, raising a NameError that no except clause catches.  The run
crashes before the sync pass and before the SSM phase instead of skipping
the unload phase and continuing. -/
theorem unrecognised_interval_crashes :
    run_client badIntervalCfg okClientExternals
      = .crash (baseTrace badIntervalCfg)
    ∧ (baseTrace badIntervalCfg).syncCalled = false
    ∧ (mainRun badIntervalCfg okClientExternals goodStaticCfg
        okExternals).ssmRan = false
    ∧ (mainRun badIntervalCfg okClientExternals goodStaticCfg
        okExternals).aborted = true := by
  decide

/-- Counterexample to claim C7: the transport phase runs whenever its own
ssm/enabled flag is set, even in a run whose unload phase was disabled. -/
theorem transport_despite_disabled_unload_cex :
    noUnloadCfg.unloader_enabled = false
    ∧ (mainRun noUnloadCfg okClientExternals goodStaticCfg
        okExternals).ssmRan = true := by
  decide

/-- Claim C7 (amended): within one run the transport phase proceeds exactly
when the ssm/enabled flag is set and run_client returned normally; the
unloader flag and the success of the detail unload play no role in the
decision. -/
theorem transport_gated_by_own_flag (ccfg : ClientConfig)
    (cext : ClientExternals) (scfg : SsmConfig) (sext : SsmExternals) :
    (mainRun ccfg cext scfg sext).ssmRan
      = (ccfg.ssm_enabled && (run_client ccfg cext).completed) := by
  unfold mainRun
  cases run_client ccfg cext <;>
    cases he : ccfg.ssm_enabled <;>
    simp [ClientResult.completed, he]

/-- Claim C8: when the include_vos option is present, the exclude_vos option
is never read: the filters handed to DbUnloader are the parsed include list
and no exclude list, whatever the exclude option holds. -/
theorem vo_filters_mutually_exclusive (s : String)
    (excOpt excOpt' : Option String) :
    voFilters (some s) excOpt = (some (parseVoList s), none)
    ∧ voFilters (some s) excOpt = voFilters (some s) excOpt' :=
  ⟨rfl, rfl⟩

/-- Claim C9: an ldap.LDAPError from the directory lookup makes run_ssm
return at once: no static fallback, no connection attempt, no process exit;
the counts already reported by run_client are untouched and the run
finishes normally. -/
theorem ldap_failure_skips_transport (ccfg : ClientConfig)
    (cext : ClientExternals) (t : ClientTrace) (scfg : SsmConfig)
    (sext : SsmExternals) (b n : String)
    (hok : run_client ccfg cext = .ok t) (hssm : ccfg.ssm_enabled = true)
    (hb : scfg.bdii = some b) (hn : scfg.network = some n)
    (hl : sext.lookup = .ldapError) :
    (mainRun ccfg cext scfg sext).clientResult = .ok t
    ∧ (mainRun ccfg cext scfg sext).aborted = false
    ∧ (mainRun ccfg cext scfg sext).ssmEvents = some noSsmEvents := by
  unfold mainRun
  rw [hok]
  simp [hssm, run_ssm, resolveBrokers, hb, hn, hl, noSsmEvents]

/-- Witness for C9: a run with a successful unload (25 records in 3
messages reported) and a failing directory lookup keeps its unload trace and
skips the transport phase. -/
theorem ldap_failure_skips_transport_witness :
    (mainRun reportCfg okClientExternals lookupCfg
        ldapFailExternals).clientResult = .ok reportTrace
    ∧ (mainRun reportCfg okClientExternals lookupCfg
        ldapFailExternals).aborted = false
    ∧ (mainRun reportCfg okClientExternals lookupCfg
        ldapFailExternals).ssmEvents = some noSsmEvents :=
  ldap_failure_skips_transport reportCfg okClientExternals reportTrace
    lookupCfg ldapFailExternals "ldap://bdii.example.org:2170" "PROD"
    (by decide) rfl rfl rfl rfl

/-- Claim C10: every run that gets past the database connection calls
summarise_jobs exactly once — the call sits outside every enable-flag
branch, so no combination of flags can suppress it. -/
theorem summarise_unconditional (cfg : ClientConfig)
    (ext : ClientExternals) (t : ClientTrace)
    (h : run_client cfg ext = .ok t ∨ run_client cfg ext = .crash t) :
    t.summariseCount = 1 := by
  rcases h with h | h <;>
  · unfold run_client at h
    split at h
    · injection h
    split at h
    · injection h
    split at h
    · injection h
    split at h
    · split at h <;>
        first
          | (injection h with h2; subst h2; simp [baseTrace])
          | injection h
    · first
        | (injection h with h2; subst h2; simp [baseTrace])
        | injection h

/-- Witness for C10: a run with all optional phases disabled still
summarises once. -/
theorem summarise_unconditional_witness :
    (baseTrace noUnloadCfg).summariseCount = 1 :=
  summarise_unconditional noUnloadCfg okClientExternals
    (baseTrace noUnloadCfg) (Or.inl (by decide))

end Apel
